import Mathlib

/-
Shallow embedding of src/1.py, a sitemap scraper for www.duramotion.nl.

The external effects of the script (HTTP via requests, HTML parsing via
BeautifulSoup, json.loads, the xlsxwriter spreadsheet library) are modelled
by explicit inputs: the pure part of fetch_sitemap_urls receives the list
of loc tag texts found in the sitemap document, the extractor receives a
fetch function of type String -> Option Fetched whose none value models a
raised network exception, a Page structure holds the results of the
individual soup queries the Python code performs, and the ld+json script
blocks are carried as already parsed Json values (none for a block on
which json.loads raises).  Everything else follows the Python source line
by line.
-/

namespace Scraper

/-! Harvester: string machinery (src/1.py lines 33..85). -/

-- Python: needle in hay, substring containment on strings.
def isInfixL (n : List Char) : List Char → Bool
  | [] => n.isEmpty
  | c :: t => n.isPrefixOf (c :: t) || isInfixL n t

def substrIn (needle hay : String) : Bool :=
  isInfixL needle.toList hay.toList

-- Python: s.split(sep) for a one-character separator.
def splitOnChar (sep : Char) : List Char → List (List Char)
  | [] => [[]]
  | c :: t =>
    if c = sep then [] :: splitOnChar sep t
    else
      match splitOnChar sep t with
      | [] => [[c]]
      | h :: r => (c :: h) :: r

-- Python: s.strip(ch), removing the character ch from both ends.
def stripChar (ch : Char) (l : List Char) : List Char :=
  ((l.dropWhile (fun c => c == ch)).reverse.dropWhile (fun c => c == ch)).reverse

-- urllib.parse scheme characters: letters, digits, plus, minus, dot.
def schemeChar (c : Char) : Bool :=
  c.isAlpha || c.isDigit || c = '+' || c = '-' || c = '.'

-- urllib.parse.urlsplit, scheme part: when the text before the first colon
-- is nonempty, the first character of the URL is a letter and every
-- character before the colon is a scheme character, the scheme and the
-- colon are dropped.
def dropScheme (u : List Char) : List Char :=
  let pre := u.takeWhile (fun c => c != ':')
  if pre.length = u.length then u
  else if pre.isEmpty then u
  else if (pre.headD ' ').isAlpha && pre.all schemeChar then u.drop (pre.length + 1)
  else u

-- urllib.parse.urlsplit, netloc part: when the remainder starts with two
-- slashes, the network location runs up to the next slash, question mark
-- or hash sign and is removed (the delimiter itself is kept).
def dropNetloc : List Char → List Char
  | '/' :: '/' :: rest => rest.dropWhile (fun c => c != '/' && c != '?' && c != '#')
  | u => u

-- urllib.parse.urlparse(url).path for a URL without a semicolon params
-- part (the params split of urlparse is not modelled; no input below
-- contains a semicolon): scheme and netloc are removed, then the fragment
-- and the query are cut off.
def urlparse_path (url : String) : String :=
  let u := dropNetloc (dropScheme url.toList)
  let u := u.takeWhile (fun c => c != '#')
  let u := u.takeWhile (fun c => c != '?')
  String.mk u

-- src/1.py lines 23..32.
def BLACKLIST : List String :=
  ["contact", "sitemap", "nieuws", "reviews", "cookies", "assortiment",
   "categorieen", "faq", "vacatures", "blog", "team", "partners",
   "omvormen", "kennis-partner", "technische-support", "klantportaal",
   "projectmanagement", "express-delivery", "van-der-valk", "recom",
   "algemene-voorwaarden", "privacy", "enphase", "his", "links",
   "nieuwsbrief-inschrijving", "huawei", "eaton", "cimco", "omvormers",
   "elektra", "kabels", "klein-materiaal", "onderconstructie",
   "calculators", "chint", "sas-box", "cah-caw"]

-- src/1.py line 14.
def MAX_URLS : Nat := 10000

-- src/1.py lines 53..54:
--   path = urlparse(url).path.strip(slash)
--   parts = [p for p in path.split(slash) if p]
def urlParts (url : String) : List String :=
  ((splitOnChar '/' (stripChar '/' (urlparse_path url).toList)).map String.mk).filter
    (fun p => p != "")

-- Python s.lower() for ASCII text (the blacklist and the site paths are
-- ASCII).
def pyLower (s : String) : String := String.mk (s.toList.map Char.toLower)

-- src/1.py line 63: slug = parts[-1].lower().  The Python code reads this
-- only after the depth check has ensured that parts is nonempty, so the
-- default value of getLastD is never the one consulted.
def slugOf (url : String) : String := pyLower ((urlParts url).getLastD "")

-- src/1.py line 64: segment_after_lang = parts[1].lower() if len(parts) > 1 else ""
def seg1Of (url : String) : String := pyLower ((urlParts url).getD 1 "")

-- src/1.py lines 51..70, the acceptance test the loop body applies to one
-- location text: the URL string must contain /nl/ as a substring, the path
-- must have at least two nonempty segments, and neither the last segment
-- nor the second segment (both lowercased) may be in the blacklist.
def accept (url : String) : Bool :=
  substrIn "/nl/" url
    && decide (2 ≤ (urlParts url).length)
    && decide (slugOf url ∉ BLACKLIST)
    && decide (seg1Of url ∉ BLACKLIST)

-- Python list(set(xs)) of line 73.  The iteration order of a Python set is
-- unspecified; this model keeps the last occurrence of each element.  The
-- claims below use only membership, absence of duplicates and length,
-- which are independent of the order chosen.
def dedup : List String → List String
  | [] => []
  | x :: xs => if x ∈ dedup xs then dedup xs else x :: dedup xs

-- src/1.py lines 33..85, the pure part of fetch_sitemap_urls: the input is
-- the list of loc tag texts of the fetched sitemap document and the result
-- is the list of candidate URLs (filter, deduplicate, cap at MAX_URLS).
def fetch_sitemap_urls (locTexts : List String) : List String :=
  (dedup (locTexts.filter accept)).take MAX_URLS

-- Following the words of the spec, for comparison with the code: the path
-- segment immediately following the first path segment equal to the
-- language marker nl.
def segAfterLangMarker : List String → Option String
  | [] => none
  | "nl" :: x :: _ => some x
  | _ :: rest => segAfterLangMarker rest

def segmentAfterLanguageMarker (url : String) : Option String :=
  segAfterLangMarker (urlParts url)

/-! Page extractor (src/1.py lines 86..176). -/

-- Parsed content of an ld+json script block, the possible results of
-- json.loads: an obj is a Python dict (whose keys are therefore distinct,
-- json.loads resolves duplicate keys before the dict is built), an arr is
-- a Python list.
inductive Json where
  | null
  | bool (b : Bool)
  | num (n : Int)
  | str (s : String)
  | arr (elems : List Json)
  | obj (fields : List (String × Json))

-- An HTML tag as far as the code inspects one: tag.get of the href
-- attribute (none when the attribute is missing).
structure HtmlTag where
  href : Option String

-- Results of the soup queries extract_product_data performs on one parsed
-- HTML document.  A none models a query that finds no element; the script
-- list carries one entry per script tag of type application/ld+json, with
-- none for a block on which json.loads raises (including a missing string).
structure Page where
  enLink : Option HtmlTag          -- line 103: find link with hreflang en
  h1Text : Option String           -- line 125: find h1, get_text(strip=True)
  codeDivText : Option String      -- line 130: find div of class zl_product_list_code
  ldJsonScripts : List (Option Json) -- line 134: find_all script ld+json, parsed
  descDivText : Option String      -- line 148: find div with id omschrijving
  productImage : Option HtmlTag    -- line 152: find a with rel productImage
  pdfAnchor : Option HtmlTag       -- line 157: select_one a.fa-file-pdf
  pdfIcon : Option (Option HtmlTag) -- lines 161..163: select_one .fa-file-pdf, then find_parent a

-- One HTTP response as far as the code inspects it: the status code and
-- the parsed body.
structure Fetched where
  status : Nat
  page : Page

-- The record dict built at lines 166..173.
structure ProductRecord where
  productCode : Json
  title : String
  description : String
  imageLink : String
  pdfLink : String
  sourceUrl : String

-- src/1.py line 12.
def BASE_URL : String := "https://www.duramotion.nl"

-- urllib.parse.urljoin(base, url) for a base whose path is empty (BASE_URL
-- is the only base the code passes) and the href shapes that occur: an
-- absolute URL is kept, a protocol relative one receives the scheme of the
-- base (https), anything else is attached to the base.
def urljoin (base url : String) : String :=
  if url = "" then base
  else if substrIn "://" url then url
  else if "//".isPrefixOf url then "https:" ++ url
  else if "/".isPrefixOf url then base ++ url
  else base ++ "/" ++ url

-- Python truthiness of tag.get of href: None and the empty string are
-- falsy, any other string is truthy.
def truthyHref (t : HtmlTag) : Option String :=
  match t.href with
  | some h => if h = "" then none else some h
  | none => none

-- Python: key in data, for data a dict, a list or a string; for any other
-- value the in operator raises TypeError, modelled as none.
def pyContains (d : Json) (key : String) : Option Bool :=
  match d with
  | .obj kvs => some (kvs.any (fun kv => kv.1 == key))
  | .arr xs => some (xs.any (fun x => match x with | .str t => t == key | _ => false))
  | .str s => some (substrIn key s)
  | _ => none

-- Python dict lookup on the fields of an obj; the keys of a dict built by
-- json.loads are distinct, so the first match is the match.
def jsonLookup : List (String × Json) → String → Option Json
  | [], _ => none
  | (k, w) :: rest, key => if k = key then some w else jsonLookup rest key

-- Python: data[key] for a string key; on a dict this is the lookup, on any
-- other value it raises TypeError, modelled as none.
def pyGetItem (d : Json) (key : String) : Option Json :=
  match d with
  | .obj kvs => jsonLookup kvs key
  | _ => none

-- src/1.py lines 136..145, the body of the loop over the script blocks
-- after data has been unwrapped: the mpn field if the in test finds one,
-- else the sku field; some v means the loop breaks with code = v, none
-- means the iteration falls through or an exception was caught, both of
-- which leave code unchanged and move to the next script.
def scriptStepCore (d : Json) : Option Json :=
  match pyContains d "mpn" with
  | none => none
  | some true => pyGetItem d "mpn"
  | some false =>
    match pyContains d "sku" with
    | none => none
    | some true => pyGetItem d "sku"
    | some false => none

-- src/1.py line 138: if isinstance(data, list): data = data[0], where
-- data[0] of an empty list raises IndexError, caught by the bare except.
def scriptStep (d : Json) : Option Json :=
  match d with
  | .arr xs =>
    match xs.head? with
    | none => none
    | some x => scriptStepCore x
  | _ => scriptStepCore d

-- src/1.py lines 134..145, the whole loop, started with code = N/A: a
-- block whose parse failed is skipped, the first block on which the step
-- produces a value breaks the loop with that value.
def scanScripts : List (Option Json) → Json
  | [] => Json.str "N/A"
  | s :: rest =>
    match s with
    | none => scanScripts rest
    | some d =>
      match scriptStep d with
      | some v => v
      | none => scanScripts rest

-- src/1.py lines 125..126.
def extractTitle (p : Page) : String := p.h1Text.getD "N/A"

-- src/1.py lines 129..132: code starts as N/A and becomes the stripped
-- text of the code div when that div exists.
def codeFromDiv (p : Page) : String := p.codeDivText.getD "N/A"

-- src/1.py lines 129..145: the script fallback runs exactly when the code
-- variable still equals N/A after the div lookup.
def extractCode (p : Page) : Json :=
  if codeFromDiv p = "N/A" then scanScripts p.ldJsonScripts else Json.str (codeFromDiv p)

-- src/1.py lines 148..149.
def extractDescription (p : Page) : String := p.descDivText.getD "N/A"

-- src/1.py lines 152..153.
def extractImageLink (p : Page) : String :=
  match p.productImage with
  | some t =>
    match truthyHref t with
    | some h => urljoin BASE_URL h
    | none => "N/A"
  | none => "N/A"

-- src/1.py lines 161..165: the icon search of the else branch.
def pdfFromIcon (p : Page) : String :=
  match p.pdfIcon with
  | some (some a) =>
    match truthyHref a with
    | some h => urljoin BASE_URL h
    | none => "N/A"
  | some none => "N/A"
  | none => "N/A"

-- src/1.py lines 156..165.
def extractPdfLink (p : Page) : String :=
  match p.pdfAnchor with
  | some t =>
    match truthyHref t with
    | some h => urljoin BASE_URL h
    | none => pdfFromIcon p
  | none => pdfFromIcon p

-- src/1.py lines 122..173: the six fields extracted from the page the code
-- settled on, together with the URL of that page.
def buildRecord (p : Page) (targetUrl : String) : ProductRecord :=
  { productCode := extractCode p, title := extractTitle p,
    description := extractDescription p, imageLink := extractImageLink p,
    pdfLink := extractPdfLink p, sourceUrl := targetUrl }

-- src/1.py lines 86..176.  fetch u = none models session.get(u) raising a
-- network exception; the outer try of the function catches every exception
-- of the body, so a raise on either get turns into the result None.  The
-- randomized sleep of line 109 has no observable effect on the result and
-- is not modelled.
def extract_product_data (fetch : String → Option Fetched) (dutch_url : String) :
    Option ProductRecord :=
  match fetch dutch_url with
  | none => none
  | some r =>
    if r.status ≠ 200 then none
    else
      match r.page.enLink with
      | some t =>
        match t.href with
        | some english_url =>
          if english_url = "" then some (buildRecord r.page dutch_url)
          else
            match fetch english_url with
            | none => none
            | some r2 =>
              if r2.status = 200 then some (buildRecord r2.page english_url)
              else some (buildRecord r.page dutch_url)
        | none => some (buildRecord r.page dutch_url)
      | none => some (buildRecord r.page dutch_url)

/-! Fetch pool and report writer (src/1.py lines 177..233). -/

-- src/1.py lines 190..199: the thread pool runs one extraction per
-- candidate and keeps the non empty results.  Completion order is
-- nondeterministic; the model collects in list order, and the claims below
-- do not depend on the order.
def run_extraction (fetch : String → Option Fetched) (candidates : List String) :
    List ProductRecord :=
  candidates.filterMap (extract_product_data fetch)

-- One spreadsheet cell of the two link columns: write_url produces a
-- clickable cell with a target and a display string, write_string a plain
-- text cell.
inductive Cell where
  | url (target : String) (display : String)
  | text (s : String)

-- src/1.py lines 223..231, the per row treatment of one link value.
def writeLinkCell (v : String) : Cell :=
  if v ≠ "N/A" then Cell.url v v else Cell.text "N/A"

-- src/1.py lines 220..231: the loop over the rows, restricted to the two
-- link columns it touches.
def renderLinkCells (records : List ProductRecord) : List (Cell × Cell) :=
  records.map (fun r => (writeLinkCell r.imageLink, writeLinkCell r.pdfLink))

-- src/1.py lines 201..233: with an empty record list the function prints a
-- diagnostic and returns before any writer is created, so no file is
-- written (modelled as none); otherwise the workbook with the rendered
-- link cells is produced.
def export_phase (records : List ProductRecord) : Option (List (Cell × Cell)) :=
  if records.isEmpty then none else some (renderLinkCells records)

/-! Concrete sample data used by the witnesses and counterexamples. -/

-- A page on which every query comes back empty.
def absentPage : Page :=
  { enLink := none, h1Text := none, codeDivText := none, ldJsonScripts := [],
    descDivText := none, productImage := none, pdfAnchor := none, pdfIcon := none }

-- A Dutch page carrying a link to an English variant.
def pageWithEnLink : Page :=
  { enLink := some { href := some "https://www.duramotion.nl/en/widget" },
    h1Text := some "Widget NL", codeDivText := some "W-1", ldJsonScripts := [],
    descDivText := some "tekst", productImage := none, pdfAnchor := none, pdfIcon := none }

-- The English page behind that link.
def pageEnTarget : Page :=
  { enLink := none, h1Text := some "Widget EN", codeDivText := some "W-1",
    ldJsonScripts := [], descDivText := some "text", productImage := none,
    pdfAnchor := none, pdfIcon := none }

-- A fetch world where the Dutch page loads and the English URL raises.
def fetchEnFails : String → Option Fetched := fun s =>
  if s = "https://www.duramotion.nl/nl/widget" then some { status := 200, page := pageWithEnLink }
  else none

-- A fetch world where both pages load with status 200.
def fetchBoth : String → Option Fetched := fun s =>
  if s = "https://www.duramotion.nl/nl/widget" then some { status := 200, page := pageWithEnLink }
  else if s = "https://www.duramotion.nl/en/widget" then some { status := 200, page := pageEnTarget }
  else none

-- A fetch world with one reachable candidate among unreachable ones.
def fetchOneGood : String → Option Fetched := fun s =>
  if s = "https://www.duramotion.nl/nl/good" then some { status := 200, page := absentPage }
  else none

-- A page without the code div whose second script block carries both keys.
def pageScripts : Page :=
  { enLink := none, h1Text := none, codeDivText := none,
    ldJsonScripts :=
      [none, some (Json.obj [("sku", Json.str "S-9"), ("mpn", Json.str "M-7")])],
    descDivText := none, productImage := none, pdfAnchor := none, pdfIcon := none }

-- A page whose code div text is literally N/A while a script block holds a
-- manufacturer part number.
def pageVisibleNA : Page :=
  { enLink := none, h1Text := none, codeDivText := some "N/A",
    ldJsonScripts := [some (Json.obj [("mpn", Json.str "M-7")])],
    descDivText := none, productImage := none, pdfAnchor := none, pdfIcon := none }

-- A record with one populated link and one absent link.
def sampleRecord : ProductRecord :=
  { productCode := Json.str "C-1", title := "T", description := "D",
    imageLink := "https://example.com/a.jpg", pdfLink := "N/A",
    sourceUrl := "https://www.duramotion.nl/en/widget" }

/-! Harvester: helper lemmas. -/

theorem mem_dedup (u : String) : ∀ l : List String, u ∈ dedup l ↔ u ∈ l
  | [] => by simp [dedup]
  | x :: xs => by
    by_cases hx : x ∈ dedup xs
    · simp only [dedup, if_pos hx]
      constructor
      · intro h
        exact List.mem_cons.mpr (Or.inr ((mem_dedup u xs).mp h))
      · intro h
        rcases List.mem_cons.mp h with h | h
        · exact h.symm ▸ hx
        · exact (mem_dedup u xs).mpr h
    · simp only [dedup, if_neg hx, List.mem_cons]
      exact or_congr Iff.rfl (mem_dedup u xs)

theorem nodup_dedup : ∀ l : List String, (dedup l).Nodup
  | [] => by simp [dedup]
  | x :: xs => by
    by_cases hx : x ∈ dedup xs
    · simpa [dedup, if_pos hx] using nodup_dedup xs
    · simpa [dedup, if_neg hx] using List.nodup_cons.mpr ⟨hx, nodup_dedup xs⟩

theorem accept_of_mem_fetch {u : String} {locs : List String}
    (h : u ∈ fetch_sitemap_urls locs) : accept u = true := by
  have h1 : u ∈ dedup (locs.filter accept) := List.take_subset _ _ h
  have h2 : u ∈ locs.filter accept := (mem_dedup u _).mp h1
  exact (List.mem_filter.mp h2).2

/-! Json helper lemmas. -/

theorem any_key_of_lookup_some {kvs : List (String × Json)} {key : String} {v : Json}
    (h : jsonLookup kvs key = some v) : kvs.any (fun kv => kv.1 == key) = true := by
  induction kvs with
  | nil => simp [jsonLookup] at h
  | cons kv rest ih =>
    obtain ⟨k, w⟩ := kv
    by_cases hk : k = key
    · simp [List.any_cons, hk]
    · simp only [jsonLookup, if_neg hk] at h
      simp [List.any_cons, ih h]

theorem any_key_of_lookup_none {kvs : List (String × Json)} {key : String}
    (h : jsonLookup kvs key = none) : kvs.any (fun kv => kv.1 == key) = false := by
  induction kvs with
  | nil => simp
  | cons kv rest ih =>
    obtain ⟨k, w⟩ := kv
    by_cases hk : k = key
    · simp [jsonLookup, if_pos hk] at h
    · simp only [jsonLookup, if_neg hk] at h
      simp [List.any_cons, ih h, hk]

/-! Claim C1. -/

/-- C1 counterexample: the claim states that any URL whose path segment
immediately following the language marker matches a blacklist entry is
excluded.  The URL below is accepted by the harvester although the segment
following the marker nl in its path is blog, a blacklist entry: the code
checks parts[1], the second path segment, which here is nl itself because
the path does not start with the marker. -/
theorem C1_counterexample :
    fetch_sitemap_urls ["https://site.com/x/nl/blog/y"] = ["https://site.com/x/nl/blog/y"]
      ∧ segmentAfterLanguageMarker "https://site.com/x/nl/blog/y" = some "blog"
      ∧ "blog" ∈ BLACKLIST :=
  ⟨by decide, by decide, by decide⟩

/-- C1 amended: every URL accepted into the candidate set has its last path
segment and its second path segment (both lowercased) outside the blacklist;
when the path starts with the language marker nl the second segment is
exactly the segment immediately following the marker, so for such URLs the
original claim holds; in particular the sitemap entry ending in
/nl/blog/post-1 is excluded. -/
theorem C1_theorem (locs : List String) (u : String)
    (h : u ∈ fetch_sitemap_urls locs) :
    (slugOf u ∉ BLACKLIST ∧ seg1Of u ∉ BLACKLIST)
      ∧ ((urlParts u).head? = some "nl" →
          ∀ s, segmentAfterLanguageMarker u = some s → pyLower s ∉ BLACKLIST)
      ∧ fetch_sitemap_urls ["https://www.duramotion.nl/nl/blog/post-1"] = [] := by
  have ha := accept_of_mem_fetch h
  simp only [accept, Bool.and_eq_true, decide_eq_true_eq] at ha
  obtain ⟨⟨⟨h1, h2⟩, h3⟩, h4⟩ := ha
  refine ⟨⟨h3, h4⟩, ?_, by decide⟩
  intro hh s hs
  cases hp : urlParts u with
  | nil => rw [hp] at hh; simp at hh
  | cons a rest =>
    rw [hp] at hh
    have ha2 : a = "nl" := by simpa using hh
    subst ha2
    cases rest with
    | nil =>
      rw [segmentAfterLanguageMarker, hp] at hs
      simp [segAfterLangMarker] at hs
    | cons x r =>
      rw [segmentAfterLanguageMarker, hp] at hs
      have hs2 : x = s := by simpa [segAfterLangMarker] using hs
      subst hs2
      have hseg : seg1Of u = pyLower x := by
        rw [seg1Of, hp]
        rfl
      rw [← hseg]
      exact h4

/-- C1 witness: a concrete accepted product URL whose path starts with the
marker, on which both blacklist exclusions of the amended claim hold. -/
theorem C1_witness :
    (slugOf "https://www.duramotion.nl/nl/product-abc" ∉ BLACKLIST
        ∧ seg1Of "https://www.duramotion.nl/nl/product-abc" ∉ BLACKLIST)
      ∧ ((urlParts "https://www.duramotion.nl/nl/product-abc").head? = some "nl" →
          ∀ s, segmentAfterLanguageMarker "https://www.duramotion.nl/nl/product-abc" = some s →
            pyLower s ∉ BLACKLIST)
      ∧ fetch_sitemap_urls ["https://www.duramotion.nl/nl/blog/post-1"] = [] :=
  C1_theorem ["https://www.duramotion.nl/nl/product-abc"]
    "https://www.duramotion.nl/nl/product-abc" (by decide)

/-! Claim C2. -/

/-- C2 counterexample: the claim states that every URL the harvester returns
has the language marker in its path.  The URL below carries /nl/ only inside
its query string; its path is /foo/bar, which contains no nl segment and no
/nl/ substring, yet the harvester accepts it, because the code tests the
marker on the whole URL string and not on the path. -/
theorem C2_counterexample :
    fetch_sitemap_urls ["https://x.com/foo/bar?from=/nl/x"]
        = ["https://x.com/foo/bar?from=/nl/x"]
      ∧ "nl" ∉ urlParts "https://x.com/foo/bar?from=/nl/x"
      ∧ substrIn "/nl/" (urlparse_path "https://x.com/foo/bar?from=/nl/x") = false :=
  ⟨by decide, by decide, by decide⟩

/-- C2 amended: every sitemap entry whose full URL string does not contain
/nl/ as a substring, or whose path has fewer than 2 non empty segments, is
excluded; equivalently, every URL the harvester returns contains /nl/ in
its URL string (not necessarily in its path) and has path depth at least
2. -/
theorem C2_theorem (locs : List String) (u : String)
    (h : u ∈ fetch_sitemap_urls locs) :
    substrIn "/nl/" u = true ∧ 2 ≤ (urlParts u).length := by
  have ha := accept_of_mem_fetch h
  simp only [accept, Bool.and_eq_true, decide_eq_true_eq] at ha
  exact ⟨ha.1.1.1, ha.1.1.2⟩

/-- C2 witness: the amended claim evaluated on a concrete accepted URL. -/
theorem C2_witness :
    substrIn "/nl/" "https://www.duramotion.nl/nl/product-abc" = true
      ∧ 2 ≤ (urlParts "https://www.duramotion.nl/nl/product-abc").length :=
  C2_theorem ["https://www.duramotion.nl/nl/product-abc"]
    "https://www.duramotion.nl/nl/product-abc" (by decide)

/-! Claim C4. -/

/-- C4: the harvester output never contains duplicate URL strings (so two
identical accepted sitemap entries yield exactly one candidate, as the
concrete conjunct shows), and its length is the minimum of the cap and the
number of distinct accepted candidates, so it never exceeds the cap and
equals the cap exactly when the distinct accepted candidates exceed it. -/
theorem C4_theorem (locs : List String) :
    (fetch_sitemap_urls locs).Nodup
      ∧ (fetch_sitemap_urls locs).length = min MAX_URLS (dedup (locs.filter accept)).length
      ∧ fetch_sitemap_urls
          ["https://www.duramotion.nl/nl/product-abc",
           "https://www.duramotion.nl/nl/product-abc"]
          = ["https://www.duramotion.nl/nl/product-abc"] := by
  refine ⟨?_, ?_, by decide⟩
  · exact (List.take_sublist _ _).nodup (nodup_dedup _)
  · simp [fetch_sitemap_urls, List.length_take]

/-- C4 witness: the claim evaluated on a concrete duplicated entry. -/
theorem C4_witness :
    (fetch_sitemap_urls
        ["https://www.duramotion.nl/nl/product-abc",
         "https://www.duramotion.nl/nl/product-abc"]).Nodup
      ∧ fetch_sitemap_urls
          ["https://www.duramotion.nl/nl/product-abc",
           "https://www.duramotion.nl/nl/product-abc"]
        = ["https://www.duramotion.nl/nl/product-abc"] := by
  have h := C4_theorem
    ["https://www.duramotion.nl/nl/product-abc",
     "https://www.duramotion.nl/nl/product-abc"]
  exact ⟨h.1, h.2.2⟩

/-! Claim C3. -/

/-- C3 counterexample: the claim states that when the alternate fetch does
not return 200 the returned record has the original candidate as its source
URL.  In the world below the Dutch page loads, carries a valid English
alternate link, and the alternate fetch raises (so it does not return
status 200); the code then returns no record at all instead of a record
sourced from the original page, because the exception of the second
session.get is caught by the outer handler that aborts the extraction. -/
theorem C3_counterexample :
    pageWithEnLink.enLink = some { href := some "https://www.duramotion.nl/en/widget" }
      ∧ fetchEnFails "https://www.duramotion.nl/en/widget" = none
      ∧ extract_product_data fetchEnFails "https://www.duramotion.nl/nl/widget" = none :=
  ⟨rfl, rfl, rfl⟩

/-- C3 amended: for every extraction, when the fetched page has a localized
alternate link with a nonempty href and fetching that href returns status
200, the record is built from the alternate page and its source URL is the
alternate URL; when no such link exists (no link tag, no href attribute, or
an empty href) the record is built from the original page with the original
URL; when the alternate fetch returns a non 200 status the record likewise
keeps the original page and URL; but when the alternate fetch raises, the
extraction yields no record at all. -/
theorem C3_theorem (fetch : String → Option Fetched) (u : String) (r : Fetched)
    (h : fetch u = some r) (h200 : r.status = 200) :
    ((r.page.enLink = none →
        extract_product_data fetch u = some (buildRecord r.page u)
          ∧ (buildRecord r.page u).sourceUrl = u)
      ∧ (∀ t, r.page.enLink = some t → (t.href = none ∨ t.href = some "") →
          extract_product_data fetch u = some (buildRecord r.page u)
            ∧ (buildRecord r.page u).sourceUrl = u))
      ∧ (∀ t e r2, r.page.enLink = some t → t.href = some e → e ≠ "" →
          fetch e = some r2 → r2.status = 200 →
            extract_product_data fetch u = some (buildRecord r2.page e)
              ∧ (buildRecord r2.page e).sourceUrl = e)
      ∧ (∀ t e r2, r.page.enLink = some t → t.href = some e → e ≠ "" →
          fetch e = some r2 → r2.status ≠ 200 →
            extract_product_data fetch u = some (buildRecord r.page u)
              ∧ (buildRecord r.page u).sourceUrl = u)
      ∧ (∀ t e, r.page.enLink = some t → t.href = some e → e ≠ "" →
          fetch e = none → extract_product_data fetch u = none) := by
  refine ⟨⟨?_, ?_⟩, ?_, ?_, ?_⟩
  · intro henl
    refine ⟨?_, rfl⟩
    simp [extract_product_data, h, h200, henl]
  · intro t henl hre
    refine ⟨?_, rfl⟩
    rcases hre with hre | hre
    · simp [extract_product_data, h, h200, henl, hre]
    · simp [extract_product_data, h, h200, henl, hre]
  · intro t e r2 henl hhref hne hfe hs2
    refine ⟨?_, rfl⟩
    simp [extract_product_data, h, h200, henl, hhref, hne, hfe, hs2]
  · intro t e r2 henl hhref hne hfe hs2
    refine ⟨?_, rfl⟩
    simp [extract_product_data, h, h200, henl, hhref, hne, hfe, hs2]
  · intro t e henl hhref hne hfe
    simp [extract_product_data, h, h200, henl, hhref, hne, hfe]

/-- C3 witness: in a world where the Dutch and the English page both return
200, the record is built from the English page and sourced at its URL. -/
theorem C3_witness :
    extract_product_data fetchBoth "https://www.duramotion.nl/nl/widget"
        = some (buildRecord pageEnTarget "https://www.duramotion.nl/en/widget")
      ∧ (buildRecord pageEnTarget "https://www.duramotion.nl/en/widget").sourceUrl
        = "https://www.duramotion.nl/en/widget" :=
  (C3_theorem fetchBoth "https://www.duramotion.nl/nl/widget"
      { status := 200, page := pageWithEnLink } rfl rfl).2.1
    { href := some "https://www.duramotion.nl/en/widget" }
    "https://www.duramotion.nl/en/widget"
    { status := 200, page := pageEnTarget } rfl rfl (by decide) rfl rfl

/-! Claim C5. -/

/-- C5: a page lacking the description container yields a record whose
description equals the absent marker, and one candidate failing (the
extraction returning none, which is how every caught exception ends) never
removes the records of the other candidates from the batch: any candidate
whose extraction succeeds contributes its record to the batch result. -/
theorem C5_theorem (p : Page) (u : String) (hdesc : p.descDivText = none)
    (fetch : String → Option Fetched) (locs : List String) (v : String)
    (rec : ProductRecord) (hv : v ∈ locs)
    (hx : extract_product_data fetch v = some rec) :
    (buildRecord p u).description = "N/A" ∧ rec ∈ run_extraction fetch locs := by
  constructor
  · simp [buildRecord, extractDescription, hdesc]
  · exact List.mem_filterMap.mpr ⟨v, hv, hx⟩

/-- C5 witness: a concrete batch with one unreachable and one reachable
candidate; the reachable page has no description container, its record has
description N/A and still reaches the batch output. -/
theorem C5_witness :
    (buildRecord absentPage "https://www.duramotion.nl/nl/good").description = "N/A"
      ∧ buildRecord absentPage "https://www.duramotion.nl/nl/good"
        ∈ run_extraction fetchOneGood
            ["https://www.duramotion.nl/nl/bad", "https://www.duramotion.nl/nl/good"] :=
  C5_theorem absentPage "https://www.duramotion.nl/nl/good" rfl fetchOneGood
    ["https://www.duramotion.nl/nl/bad", "https://www.duramotion.nl/nl/good"]
    "https://www.duramotion.nl/nl/good"
    (buildRecord absentPage "https://www.duramotion.nl/nl/good") (by decide) rfl

/-! Claim C6. -/

/-- C6: when the code container is absent the product code comes from the
scan of the structured data script blocks, and that scan behaves as
claimed: an unparsable block is skipped without aborting the record, the
first block producing a value wins and stops the scan, a block parsed to a
sequence is inspected through its first element, and inside one object the
manufacturer part number field is preferred and the stock keeping unit
field is used only when the mpn key is absent. -/
theorem C6_theorem (p : Page) (u : String) (hdiv : p.codeDivText = none) :
    (buildRecord p u).productCode = scanScripts p.ldJsonScripts
      ∧ (∀ rest : List (Option Json), scanScripts (none :: rest) = scanScripts rest)
      ∧ (∀ (d : Json) (rest : List (Option Json)) (v : Json),
          scriptStep d = some v → scanScripts (some d :: rest) = v)
      ∧ (∀ (d : Json) (rest : List (Option Json)),
          scriptStep d = none → scanScripts (some d :: rest) = scanScripts rest)
      ∧ (∀ (x : Json) (xs : List Json), scriptStep (Json.arr (x :: xs)) = scriptStepCore x)
      ∧ (∀ (kvs : List (String × Json)) (v : Json), jsonLookup kvs "mpn" = some v →
          scriptStepCore (Json.obj kvs) = some v)
      ∧ (∀ (kvs : List (String × Json)) (v : Json), jsonLookup kvs "mpn" = none →
          jsonLookup kvs "sku" = some v → scriptStepCore (Json.obj kvs) = some v)
      ∧ scanScripts [] = Json.str "N/A" := by
  refine ⟨?_, fun rest => rfl, ?_, ?_, fun x xs => rfl, ?_, ?_, rfl⟩
  · simp [buildRecord, extractCode, codeFromDiv, hdiv]
  · intro d rest v hstep
    simp [scanScripts, hstep]
  · intro d rest hstep
    simp [scanScripts, hstep]
  · intro kvs v h
    simp [scriptStepCore, pyContains, any_key_of_lookup_some h, pyGetItem, h]
  · intro kvs v hm hs
    simp [scriptStepCore, pyContains, any_key_of_lookup_none hm,
      any_key_of_lookup_some hs, pyGetItem, hs]

/-- C6 witness: a concrete page without the code container whose first
script block is unparsable and whose second block carries both keys; the
record receives the mpn value of the second block. -/
theorem C6_witness :
    (buildRecord pageScripts "https://www.duramotion.nl/nl/p").productCode
        = scanScripts pageScripts.ldJsonScripts
      ∧ scanScripts pageScripts.ldJsonScripts = Json.str "M-7" :=
  ⟨(C6_theorem pageScripts "https://www.duramotion.nl/nl/p" rfl).1, rfl⟩

/-! Claim C7. -/

/-- C7: for every record the writer processes, the pair of cells rendered
for its two link columns appears in the output; a link value different from
the absent marker becomes a hyperlink cell whose target and display text
are both exactly that value, and a value equal to the marker becomes a
plain text cell holding exactly the marker string; the concrete conjunct
shows the example URL of the claim. -/
theorem C7_theorem (records : List ProductRecord) (rec : ProductRecord)
    (h : rec ∈ records) :
    (writeLinkCell rec.imageLink, writeLinkCell rec.pdfLink) ∈ renderLinkCells records
      ∧ (rec.imageLink ≠ "N/A" →
          writeLinkCell rec.imageLink = Cell.url rec.imageLink rec.imageLink)
      ∧ (rec.imageLink = "N/A" → writeLinkCell rec.imageLink = Cell.text "N/A")
      ∧ (rec.pdfLink ≠ "N/A" →
          writeLinkCell rec.pdfLink = Cell.url rec.pdfLink rec.pdfLink)
      ∧ (rec.pdfLink = "N/A" → writeLinkCell rec.pdfLink = Cell.text "N/A")
      ∧ writeLinkCell "https://example.com/a.jpg"
        = Cell.url "https://example.com/a.jpg" "https://example.com/a.jpg" := by
  refine ⟨List.mem_map_of_mem _ h, ?_, ?_, ?_, ?_, rfl⟩
  · intro hne; simp [writeLinkCell, hne]
  · intro heq; simp [writeLinkCell, heq]
  · intro hne; simp [writeLinkCell, hne]
  · intro heq; simp [writeLinkCell, heq]

/-- C7 witness: a concrete record with a populated image link and an absent
document link is rendered with one hyperlink cell and one plain text
cell. -/
theorem C7_witness :
    (writeLinkCell sampleRecord.imageLink, writeLinkCell sampleRecord.pdfLink)
        ∈ renderLinkCells [sampleRecord]
      ∧ writeLinkCell sampleRecord.imageLink
        = Cell.url sampleRecord.imageLink sampleRecord.imageLink
      ∧ writeLinkCell sampleRecord.pdfLink = Cell.text "N/A" := by
  have h := C7_theorem [sampleRecord] sampleRecord (List.mem_singleton.mpr rfl)
  exact ⟨h.1, h.2.1 (by decide), h.2.2.2.2.1 rfl⟩

/-! Claim C8. -/

/-- C8: the export phase produces no output exactly when the record list is
empty (the code prints a diagnostic and returns before the writer is
created), and with at least one record it produces the workbook; the
function is total, so the program does not crash on an empty collection. -/
theorem C8_theorem :
    export_phase [] = none
      ∧ (∀ records : List ProductRecord, export_phase records = none ↔ records = [])
      ∧ (∀ records : List ProductRecord, records ≠ [] →
          export_phase records = some (renderLinkCells records)) := by
  refine ⟨rfl, ?_, ?_⟩
  · intro records
    cases records with
    | nil => simp [export_phase]
    | cons r rs => simp [export_phase]
  · intro records hne
    cases records with
    | nil => exact absurd rfl hne
    | cons r rs => simp [export_phase]

/-- C8 witness: a singleton record list is exported, an empty one is not. -/
theorem C8_witness :
    export_phase [sampleRecord] = some (renderLinkCells [sampleRecord])
      ∧ export_phase [] = none :=
  ⟨C8_theorem.2.2 [sampleRecord] (List.cons_ne_nil _ _), C8_theorem.1⟩

/-! Claim C9. -/

/-- C9: when the code container exists but its stripped text equals the
marker string, the script fallback is still consulted, and the container
text is used only when it differs from the marker; the concrete conjunct
shows a page whose visible code text is literally the marker receiving its
code from the structured data instead. -/
theorem C9_theorem (p : Page) (u : String) :
    (p.codeDivText = some "N/A" →
        (buildRecord p u).productCode = scanScripts p.ldJsonScripts)
      ∧ (∀ t, p.codeDivText = some t → t ≠ "N/A" →
          (buildRecord p u).productCode = Json.str t)
      ∧ (buildRecord pageVisibleNA "https://www.duramotion.nl/nl/p").productCode
        = Json.str "M-7" := by
  refine ⟨?_, ?_, rfl⟩
  · intro hdiv
    simp [buildRecord, extractCode, codeFromDiv, hdiv]
  · intro t hdiv hne
    simp [buildRecord, extractCode, codeFromDiv, hdiv, hne]

/-- C9 witness: the fallback fires on a concrete page whose code div text
is the marker string, and the scan of its script blocks yields the mpn
value. -/
theorem C9_witness :
    (buildRecord pageVisibleNA "https://www.duramotion.nl/nl/p").productCode
        = scanScripts pageVisibleNA.ldJsonScripts
      ∧ scanScripts pageVisibleNA.ldJsonScripts = Json.str "M-7" :=
  ⟨(C9_theorem pageVisibleNA "https://www.duramotion.nl/nl/p").1 rfl, rfl⟩

/-! Claim C10. -/

/-- C10: a record always carries all six fields; on a page where every
query misses, the five extracted fields all equal the same literal string
N/A (the code field as the string value N/A) and the source URL is the
scraped URL; each field falls back to that marker under its absence
condition; and the writer renders a value as a hyperlink cell exactly when
it differs from N/A, writing the plain marker text otherwise. -/
theorem C10_theorem (p : Page) (u v : String) :
    buildRecord absentPage u =
        { productCode := Json.str "N/A", title := "N/A", description := "N/A",
          imageLink := "N/A", pdfLink := "N/A", sourceUrl := u }
      ∧ (p.h1Text = none → (buildRecord p u).title = "N/A")
      ∧ (p.descDivText = none → (buildRecord p u).description = "N/A")
      ∧ (p.productImage = none → (buildRecord p u).imageLink = "N/A")
      ∧ (p.pdfAnchor = none → p.pdfIcon = none → (buildRecord p u).pdfLink = "N/A")
      ∧ (p.codeDivText = none → p.ldJsonScripts = [] →
          (buildRecord p u).productCode = Json.str "N/A")
      ∧ (writeLinkCell v = Cell.url v v ↔ v ≠ "N/A")
      ∧ (v = "N/A" → writeLinkCell v = Cell.text "N/A") := by
  refine ⟨rfl, ?_, ?_, ?_, ?_, ?_, ?_, ?_⟩
  · intro h1; simp [buildRecord, extractTitle, h1]
  · intro hd; simp [buildRecord, extractDescription, hd]
  · intro hi; simp [buildRecord, extractImageLink, hi]
  · intro ha hi; simp [buildRecord, extractPdfLink, ha, pdfFromIcon, hi]
  · intro hc hs; simp [buildRecord, extractCode, codeFromDiv, hc, hs, scanScripts]
  · by_cases hv : v = "N/A"
    · subst hv
      simp [writeLinkCell]
    · simp [writeLinkCell, hv]
  · intro hv
    subst hv
    simp [writeLinkCell]

/-- C10 witness: the all absent page yields the fully marked record, and
the marker value is rendered as a plain text cell. -/
theorem C10_witness :
    buildRecord absentPage "https://www.duramotion.nl/nl/p" =
        { productCode := Json.str "N/A", title := "N/A", description := "N/A",
          imageLink := "N/A", pdfLink := "N/A",
          sourceUrl := "https://www.duramotion.nl/nl/p" }
      ∧ writeLinkCell "N/A" = Cell.text "N/A" := by
  have h := C10_theorem absentPage "https://www.duramotion.nl/nl/p" "N/A"
  exact ⟨h.1, h.2.2.2.2.2.2.2 rfl⟩

end Scraper
